import Mathlib

/-!
Verification of the GitLab vulnerability report generator (`2.py`).

The Python source is shallowly embedded: Python ints become `Int`/`Nat`,
Python float division of integer counts is modelled as exact rational
division (`ℚ`), `None`-returning fallible code becomes `Option`, raised
exceptions that escape a function become `Except.error`, and the network
is a parameter (a function from request/page index to outcome).
-/

namespace GitlabVulnReport

/-- A dynamically typed Python value, as far as `int(...)` conversion at
the top of `_compute_pct_change_against_current` can observe it: an
actual int, a string (convertible iff it parses as an integer), or
`None` (never convertible). -/
inductive PyVal where
  | vint (n : Int)
  | vstr (s : String)
  | vnone
  deriving DecidableEq, Repr

/-- Python `int(x)` conversion: succeeds on ints and on strings that
parse as integers, raises (here: `none`) otherwise. -/
def pyToInt : PyVal → Option Int
  | .vint n => some n
  | .vstr s => s.toInt?
  | .vnone => none

/-- Core arithmetic of `_compute_pct_change_against_current` (lines
288-293 of `2.py`), after both arguments converted to integers:
zero baseline with zero window is `0.0`, zero baseline with nonzero
window is undefined (`None`), otherwise the signed fraction
`(wc - cc) / cc` (exact rational in this model). -/
def pctCore (wc cc : Int) : Option ℚ :=
  if cc = 0 then
    if wc = 0 then some 0 else none
  else
    some (((wc - cc : Int) : ℚ) / (cc : ℚ))

/-- Function `_compute_pct_change_against_current` (lines 274-293 of `2.py`):
`int(...)` conversion of both arguments inside `try`, any conversion
failure caught and turned into `None`; then `pctCore`. -/
def compute_pct_change_against_current (window_count current_count : PyVal) : Option ℚ :=
  match pyToInt window_count, pyToInt current_count with
  | some wc, some cc => pctCore wc cc
  | _, _ => none

/-- A spreadsheet cell value as written by the report builder: either a
literal string or a number carrying a number format. -/
inductive Cell where
  | strC (s : String)
  | numC (q : ℚ) (fmt : String)
  deriving DecidableEq, Repr

/-- Rendering of one percent-change cell in `add_percentage_change_table`
(lines 360-370 of `2.py`): `None` becomes the literal dash string,
a defined value is written as a number with the signed percent format. -/
def renderPctCell (val : Option ℚ) : Cell :=
  match val with
  | none => .strC "-"
  | some q => .numC q "+0.00%;-0.00%;0.00%"

/-- C1: for every pair of integers with a positive current count, the
percent-change function returns exactly the signed fraction
`(windowCount - currentCount) / currentCount`, and in particular equal
counts yield `0.0`. -/
theorem pct_change_exact_fraction (wc cc : Int) (h : 0 < cc) :
    compute_pct_change_against_current (.vint wc) (.vint cc)
      = some (((wc : ℚ) - (cc : ℚ)) / (cc : ℚ))
    ∧ (wc = cc →
        compute_pct_change_against_current (.vint wc) (.vint cc) = some 0) := by
  have hcc : cc ≠ 0 := ne_of_gt h
  constructor
  · simp only [compute_pct_change_against_current, pyToInt, pctCore, if_neg hcc]
    push_cast
    ring_nf
  · intro hwc
    subst hwc
    simp only [compute_pct_change_against_current, pyToInt, pctCore, if_neg hcc]
    norm_num

/-- Witness for C1 at the concrete pair (5, 3). -/
theorem pct_change_exact_fraction_witness :
    compute_pct_change_against_current (.vint 5) (.vint 3) = some ((2 : ℚ) / 3) := by
  have h := (pct_change_exact_fraction 5 3 (by norm_num)).1
  rw [h]
  norm_num

/-- C2: percent change on a zero baseline: `(0, 0)` gives `0.0`; a
positive window count over a zero current count gives `None`, which the
report builder renders as the literal dash placeholder. -/
theorem pct_change_zero_baseline :
    compute_pct_change_against_current (.vint 0) (.vint 0) = some 0
    ∧ ∀ n : Int, 0 < n →
        compute_pct_change_against_current (.vint n) (.vint 0) = none
        ∧ renderPctCell (compute_pct_change_against_current (.vint n) (.vint 0))
            = Cell.strC "-" := by
  constructor
  · rfl
  · intro n hn
    have hne : n ≠ 0 := ne_of_gt hn
    constructor
    · simp [compute_pct_change_against_current, pyToInt, pctCore, hne]
    · simp [compute_pct_change_against_current, pyToInt, pctCore, hne, renderPctCell]

/-- Witness for C2 at the concrete window count 4. -/
theorem pct_change_zero_baseline_witness :
    compute_pct_change_against_current (.vint 4) (.vint 0) = none
    ∧ renderPctCell (compute_pct_change_against_current (.vint 4) (.vint 0))
        = Cell.strC "-" :=
  pct_change_zero_baseline.2 4 (by norm_num)

/-- C10: the percent-change function is total over arbitrary inputs:
whenever either argument fails integer conversion, the caught exception
branch returns `None` rather than raising. -/
theorem pct_change_total_on_unconvertible (w c : PyVal)
    (h : pyToInt w = none ∨ pyToInt c = none) :
    compute_pct_change_against_current w c = none := by
  unfold compute_pct_change_against_current
  rcases h with h | h
  · rw [h]
  · rw [h]; cases pyToInt w <;> rfl

/-- Witness for C10 at the concrete pair (None, 3). -/
theorem pct_change_total_on_unconvertible_witness :
    compute_pct_change_against_current .vnone (.vint 3) = none :=
  pct_change_total_on_unconvertible .vnone (.vint 3) (Or.inl rfl)

/-- An authenticated HTTP session, holding the headers `make_session`
installs (lines 54-77 of `2.py`). Retry/backoff configuration is
transport-level and carries no data we reason about. -/
structure Session where
  authHeader : String
  acceptHeader : String
  deriving DecidableEq, Repr

/-- Function `make_session` (lines 54-77 of `2.py`): a falsy token (unset
environment variable, i.e. `none`, or the empty string) raises a
`RuntimeError`; otherwise the session is built with a bearer header.
The environment lookup `os.environ.get` yields `Option String`. -/
def make_session (token : Option String) : Except String Session :=
  if token.getD "" = "" then
    .error "GRAPHQL_API_TOKEN environment variable is required for authentication."
  else
    .ok { authHeader := "Bearer " ++ token.getD "",
          acceptHeader := "application/json" }

/-- C8: an absent or empty bearer-token credential makes session
construction fail with the fatal configuration error, and a nonempty
credential makes it succeed. Since every request primitive takes the
constructed `Session`, the failure precedes any network activity. -/
theorem make_session_requires_token (token : Option String) :
    (token.getD "" = "" →
      make_session token
        = .error "GRAPHQL_API_TOKEN environment variable is required for authentication.")
    ∧ (token.getD "" ≠ "" → ∃ s, make_session token = .ok s) := by
  constructor
  · intro h
    simp [make_session, h]
  · intro h
    refine ⟨⟨"Bearer " ++ token.getD "", "application/json"⟩, ?_⟩
    simp [make_session, h]

/-- Witness for C8: unset credential fails, a concrete token succeeds. -/
theorem make_session_requires_token_witness :
    make_session none
      = .error "GRAPHQL_API_TOKEN environment variable is required for authentication."
    ∧ ∃ s, make_session (some "tok") = .ok s :=
  ⟨(make_session_requires_token none).1 rfl,
   (make_session_requires_token (some "tok")).2 (by decide)⟩

/-- One call of `SESSION.get` as `_get_json` can observe it: it raises a
`ChunkedEncodingError`, raises some other exception, or returns a
response with a status code and a body that either parses as a JSON
list of records or does not (`none`). `α` is the record type. -/
inductive HttpCall (α : Type) where
  | chunkErr
  | otherErr
  | resp (status : Nat) (body : Option (List α))

/-- Whether a `SESSION.get` call raised. -/
def HttpCall.raises {α : Type} : HttpCall α → Bool
  | .chunkErr => true
  | .otherErr => true
  | .resp _ _ => false

/-- Status and body checks shared by every path of `_get_json` (lines
116-124 of `2.py`): non-200 status gives `none`; a 200 with an
unparseable body gives `none`; otherwise the parsed list. -/
def finishResp {α : Type} (status : Nat) (body : Option (List α)) : Option (List α) :=
  if status = 200 then body else none

/-- The tail of `_get_json` from line 112 on, given the response the
try/except block produced: on a 429 the code sleeps and immediately
re-issues `SESSION.get` OUTSIDE any try/except (line 114 of `2.py`),
so an exception raised there escapes `_get_json` (`Except.error`). -/
def handle429 {α : Type} (calls : Nat → HttpCall α) (next : Nat)
    (status : Nat) (body : Option (List α)) : Except Unit (Option (List α)) :=
  if status = 429 then
    match calls next with
    | .chunkErr => .error ()
    | .otherErr => .error ()
    | .resp s2 b2 => .ok (finishResp s2 b2)
  else
    .ok (finishResp status body)

/-- Function `_get_json` (lines 97-124 of `2.py`), over the sequence of
`SESSION.get` outcomes it consumes (`calls 0` is the initial request,
later indices the retries). A `ChunkedEncodingError` triggers one
retried call whose own exceptions are all caught to `none`; any other
exception of the initial call is caught to `none`; then the 429
re-request and the status/body checks. -/
def getJson {α : Type} (_session : Session) (calls : Nat → HttpCall α) :
    Except Unit (Option (List α)) :=
  match calls 0 with
  | .otherErr => .ok none
  | .chunkErr =>
    match calls 1 with
    | .chunkErr => .ok none
    | .otherErr => .ok none
    | .resp s b => handle429 calls 2 s b
  | .resp s b => handle429 calls 1 s b

/-- The exact condition under which `_get_json` propagates an
exception: the try/except block produced a 429 response and the
unprotected re-request raised. -/
def propagates429 {α : Type} (calls : Nat → HttpCall α) : Prop :=
  (∃ b, calls 0 = .resp 429 b ∧ (calls 1).raises = true)
  ∨ (calls 0 = .chunkErr ∧ ∃ b, calls 1 = .resp 429 b ∧ (calls 2).raises = true)

/-- C3 counterexample: a request whose first call returns status 429
and whose retry raises a network exception makes `_get_json` itself
raise, rather than return the `None` value the claim promises for
every network exception. -/
def cexCalls : Nat → HttpCall Unit :=
  fun n => if n = 0 then .resp 429 none else .otherErr

/-- C3 is falsified at `cexCalls`: `_get_json` propagates an exception
to its caller instead of returning `None`. -/
theorem getJson_counterexample :
    getJson ⟨"Bearer tok", "application/json"⟩ cexCalls = .error ()
    ∧ getJson ⟨"Bearer tok", "application/json"⟩ cexCalls ≠ .ok none := by
  refine ⟨rfl, ?_⟩
  intro h
  rw [show getJson ⟨"Bearer tok", "application/json"⟩ cexCalls
        = Except.error () from rfl] at h
  exact Except.noConfusion h

/-- C3 amended: `_get_json` returns `None` on every caught failure
(initial exception, non-200 non-429 status, unparseable body) and the
only way it propagates an exception is a 429 response whose immediate
unprotected retry raises. -/
theorem getJson_amended {α : Type} (session : Session) (calls : Nat → HttpCall α) :
    (getJson session calls = .error () ↔ propagates429 calls)
    ∧ (calls 0 = .otherErr → getJson session calls = .ok none)
    ∧ (∀ s b, calls 0 = .resp s b → s ≠ 200 → s ≠ 429 →
        getJson session calls = .ok none)
    ∧ (∀ s, calls 0 = .resp s none → s ≠ 429 → getJson session calls = .ok none) := by
  refine ⟨?_, ?_, ?_, ?_⟩
  · cases h0 : calls 0 with
    | otherErr => simp [getJson, propagates429, h0]
    | chunkErr =>
      cases h1 : calls 1 with
      | chunkErr => simp [getJson, propagates429, h0, h1, HttpCall.raises]
      | otherErr => simp [getJson, propagates429, h0, h1, HttpCall.raises]
      | resp s b =>
        by_cases hs : s = 429
        · subst hs
          cases h2 : calls 2 with
          | chunkErr =>
            simp [getJson, handle429, propagates429, h0, h1, h2, HttpCall.raises]
          | otherErr =>
            simp [getJson, handle429, propagates429, h0, h1, h2, HttpCall.raises]
          | resp s2 b2 =>
            simp [getJson, handle429, propagates429, h0, h1, h2, HttpCall.raises]
        · simp [getJson, handle429, propagates429, h0, h1, hs, HttpCall.raises]
    | resp s b =>
      by_cases hs : s = 429
      · subst hs
        cases h1 : calls 1 with
        | chunkErr =>
          simp [getJson, handle429, propagates429, h0, h1, HttpCall.raises]
        | otherErr =>
          simp [getJson, handle429, propagates429, h0, h1, HttpCall.raises]
        | resp s2 b2 =>
          simp [getJson, handle429, propagates429, h0, h1, HttpCall.raises]
      · simp [getJson, handle429, propagates429, h0, hs, HttpCall.raises]
  · intro h
    simp [getJson, h]
  · intro s b h h200 h429
    simp [getJson, handle429, finishResp, h, h200, h429]
  · intro s h h429
    simp [getJson, handle429, finishResp, h, h429]

/-- Witness for C3 amended: concrete failing call sequences produce
`Except.ok none`, and a concrete clean sequence does not error. -/
theorem getJson_amended_witness :
    getJson (α := Unit) ⟨"Bearer tok", "application/json"⟩ (fun _ => .otherErr) = .ok none
    ∧ getJson (α := Unit) ⟨"Bearer tok", "application/json"⟩
        (fun _ => .resp 500 (some [])) = .ok none
    ∧ getJson (α := Unit) ⟨"Bearer tok", "application/json"⟩
        (fun _ => .resp 200 none) = .ok none :=
  ⟨(getJson_amended ⟨"Bearer tok", "application/json"⟩ (fun _ => .otherErr)).2.1 rfl,
   (getJson_amended ⟨"Bearer tok", "application/json"⟩
      (fun _ => .resp 500 (some []))).2.2.1 500 (some []) rfl (by decide) (by decide),
   (getJson_amended ⟨"Bearer tok", "application/json"⟩
      (fun _ => .resp 200 none)).2.2.2 200 rfl (by decide)⟩

/-- A project record, as far as `main` reads it: `id` and `name`. -/
structure Project where
  pid : Int
  pname : Option String
  deriving DecidableEq, Repr

/-- A vulnerability record, as far as the aggregator reads it:
`severity`, `state` and `created_at`, each possibly missing. -/
structure Vuln where
  severity : Option String
  state : Option String
  created_at : Option String
  deriving DecidableEq, Repr

/-- The shared pagination loop of `get_projects_in_group` (lines
140-155) and `iter_project_vulnerabilities` (lines 158-172 of `2.py`):
request page `page`; a failed request (`none`) or an empty page stops
the loop; otherwise accumulate the records and move to the next page.
`pages p` is the `_get_json` result for page `p`; `fuel` bounds the
number of iterations so the loop is a total function. -/
def fetchPages {α : Type} (pages : Nat → Option (List α)) : Nat → Nat → List α
  | 0, _ => []
  | fuel + 1, page =>
    match pages page with
    | none => []
    | some [] => []
    | some data => data ++ fetchPages pages fuel (page + 1)

/-- Function `get_projects_in_group` (lines 140-155 of `2.py`): the pagination
loop started at page 1 over the group-projects endpoint. -/
def get_projects_in_group (pages : Nat → Option (List Project)) (fuel : Nat) :
    List Project :=
  fetchPages pages fuel 1

/-- Function `iter_project_vulnerabilities` (lines 158-172 of `2.py`): the
pagination loop started at page 1 over the project-vulnerabilities
endpoint; the generator's yielded sequence is the concatenated list. -/
def iter_project_vulnerabilities (pages : Nat → Option (List Vuln)) (fuel : Nat) :
    List Vuln :=
  fetchPages pages fuel 1

/-- Page `p` ends the pagination loop: the request failed (`none`) or
returned zero records. -/
def stopsAt {α : Type} (pages : Nat → Option (List α)) (p : Nat) : Prop :=
  pages p = none ∨ pages p = some []

/-- The records of pages `start, start+1, ..., start+n-1` in order,
a failed page contributing nothing. -/
def accumPages {α : Type} (pages : Nat → Option (List α)) : Nat → Nat → List α
  | _, 0 => []
  | start, n + 1 => (pages start).getD [] ++ accumPages pages (start + 1) n

/-- If the first `n` pages from `start` are nonempty successes and page
`start + n` stops the loop, then with any fuel above `n` the loop
returns exactly the accumulated records of those `n` pages — in
particular its value no longer depends on the fuel. -/
theorem fetchPages_eq_accum {α : Type} (pages : Nat → Option (List α)) :
    ∀ (n start fuel : Nat), n < fuel →
      (∀ i, i < n → ∃ d, pages (start + i) = some d ∧ d ≠ []) →
      stopsAt pages (start + n) →
      fetchPages pages fuel start = accumPages pages start n := by
  intro n
  induction n with
  | zero =>
    intro start fuel hf _ hstop
    cases fuel with
    | zero => omega
    | succ f =>
      rw [Nat.add_zero] at hstop
      rcases hstop with h | h <;> simp [fetchPages, accumPages, h]
  | succ n ih =>
    intro start fuel hf hok hstop
    cases fuel with
    | zero => omega
    | succ f =>
      obtain ⟨d, hd, hne⟩ := hok 0 (Nat.succ_pos n)
      rw [Nat.add_zero] at hd
      cases d with
      | nil => exact absurd rfl hne
      | cons x xs =>
        have hstep : fetchPages pages (f + 1) start
            = (x :: xs) ++ fetchPages pages f (start + 1) := by
          simp [fetchPages, hd]
        have hih := ih (start + 1) f (by omega)
          (fun i hi => by
            obtain ⟨d', hd', hne'⟩ := hok (i + 1) (by omega)
            refine ⟨d', ?_, hne'⟩
            rw [show start + 1 + i = start + (i + 1) by omega]
            exact hd')
          (by rw [show start + 1 + n = start + (n + 1) by omega]; exact hstop)
        rw [hstep, hih]
        simp [accumPages, hd]

/-- C4: both pagination accessors start at page 1 and terminate: as
soon as some page (`1 + np`, resp. `1 + nv`) fails or returns zero
records, the loop with any sufficient fuel returns exactly the records
accumulated from the earlier pages, independently of the fuel. -/
theorem pagination_terminates
    (pp : Nat → Option (List Project)) (vp : Nat → Option (List Vuln)) (np nv : Nat)
    (hpOk : ∀ i, i < np → ∃ d, pp (1 + i) = some d ∧ d ≠ [])
    (hpStop : stopsAt pp (1 + np))
    (hvOk : ∀ i, i < nv → ∃ d, vp (1 + i) = some d ∧ d ≠ [])
    (hvStop : stopsAt vp (1 + nv))
    (f g : Nat) (hf : np < f) (hg : nv < g) :
    get_projects_in_group pp f = accumPages pp 1 np
    ∧ iter_project_vulnerabilities vp g = accumPages vp 1 nv :=
  ⟨fetchPages_eq_accum pp np 1 f hf hpOk hpStop,
   fetchPages_eq_accum vp nv 1 g hg hvOk hvStop⟩

/-- Concrete project pages for the C4 witness: page 1 has one project,
the page-2 request fails. -/
def ppW : Nat → Option (List Project) :=
  fun p => if p = 1 then some [⟨7, some "alpha"⟩] else none

/-- Concrete vulnerability pages for the C4 witness: pages 1 and 2 have
one record each, page 3 is empty. -/
def vpW : Nat → Option (List Vuln) :=
  fun p => if p ≤ 2 then some [⟨some "critical", some "detected", none⟩] else some []

/-- Witness for C4 at the concrete page functions `ppW` and `vpW`. -/
theorem pagination_terminates_witness :
    get_projects_in_group ppW 5 = [⟨7, some "alpha"⟩]
    ∧ iter_project_vulnerabilities vpW 7
        = [⟨some "critical", some "detected", none⟩,
           ⟨some "critical", some "detected", none⟩] := by
  have h := pagination_terminates ppW vpW 1 2
    (fun i hi => by
      have hi0 : i = 0 := by omega
      subst hi0
      exact ⟨[⟨7, some "alpha"⟩], rfl, by decide⟩)
    (Or.inl rfl)
    (fun i hi => by
      interval_cases i
      · exact ⟨[⟨some "critical", some "detected", none⟩], rfl, by decide⟩
      · exact ⟨[⟨some "critical", some "detected", none⟩], rfl, by decide⟩)
    (Or.inr rfl)
    5 7 (by omega) (by omega)
  exact ⟨h.1.trans rfl, h.2.trans rfl⟩

/-- Function `_parse_utc` (lines 127-136 of `2.py`), over an abstract ISO-8601
parse oracle `iso` standing for `dateutil.parser.isoparse` (third-party,
not in this repository): yields the UTC instant, here an epoch-second
integer. An empty (falsy) string is rejected up front; a parse failure
(`iso` returning `none`) is caught to `none`; timezone normalisation
does not change the instant. -/
def parse_utc (iso : String → Option Int) (dt_str : String) : Option Int :=
  if dt_str = "" then none else iso dt_str

/-- The filter condition of `get_vulns_last_n_days_all_states` (line
193 of `2.py`): keep a record iff its `created_at` (missing key read as
`""`) parses and the instant is at or after the cutoff. -/
def keepInWindow (iso : String → Option Int) (cutoff : Int) (v : Vuln) : Bool :=
  match parse_utc iso (v.created_at.getD "") with
  | some t => decide (cutoff ≤ t)
  | none => false

/-- Function `get_vulns_last_n_days_all_states` (lines 188-195 of `2.py`):
`cutoff = now - timedelta(days=days_back)` in epoch seconds, then the
window filter over the fetched records. -/
def get_vulns_last_n_days_all_states (iso : String → Option Int) (now : Int)
    (days_back : Nat) (vulns : List Vuln) : List Vuln :=
  let cutoff := now - (days_back : Int) * 86400
  vulns.filter (keepInWindow iso cutoff)

/-- C5: window filtering includes a record whose parsed creation
timestamp equals the cutoff `now - daysBack` exactly, excludes a record
strictly older than the cutoff, and excludes a record with a missing or
unparseable timestamp (the filter is a total function, so nothing is
raised). -/
theorem window_filter_boundary (iso : String → Option Int) (now : Int)
    (days_back : Nat) (vulns : List Vuln) (v : Vuln) (hv : v ∈ vulns) :
    (parse_utc iso (v.created_at.getD "") = some (now - (days_back : Int) * 86400) →
      v ∈ get_vulns_last_n_days_all_states iso now days_back vulns)
    ∧ (∀ t, parse_utc iso (v.created_at.getD "") = some t →
        t < now - (days_back : Int) * 86400 →
        v ∉ get_vulns_last_n_days_all_states iso now days_back vulns)
    ∧ (parse_utc iso (v.created_at.getD "") = none →
        v ∉ get_vulns_last_n_days_all_states iso now days_back vulns)
    ∧ (v.created_at = none →
        v ∉ get_vulns_last_n_days_all_states iso now days_back vulns) := by
  refine ⟨?_, ?_, ?_, ?_⟩
  · intro h
    exact List.mem_filter.mpr ⟨hv, by simp [keepInWindow, h]⟩
  · intro t ht hlt hmem
    have hkeep := (List.mem_filter.mp hmem).2
    simp [keepInWindow, ht] at hkeep
    omega
  · intro h hmem
    have hkeep := (List.mem_filter.mp hmem).2
    simp [keepInWindow, h] at hkeep
  · intro h hmem
    have hkeep := (List.mem_filter.mp hmem).2
    simp [keepInWindow, parse_utc, h] at hkeep

/-- ISO parse oracle for the C5 witness: two known timestamp strings. -/
def isoW : String → Option Int :=
  fun s => if s = "T0" then some 0 else if s = "Told" then some (-5) else none

/-- Records for the C5 witness: boundary, strictly older, unparseable,
and missing timestamps. -/
def vulnsW : List Vuln :=
  [⟨some "critical", some "detected", some "T0"⟩,
   ⟨some "high", some "detected", some "Told"⟩,
   ⟨some "critical", some "detected", some "garbage"⟩,
   ⟨some "critical", some "detected", none⟩]

/-- Witness for C5 with `now = 30 * 86400` and a 30-day window, so the
cutoff is instant 0: the boundary record is kept, the older, the
unparseable and the missing ones are dropped. -/
theorem window_filter_boundary_witness :
    Vuln.mk (some "critical") (some "detected") (some "T0")
      ∈ get_vulns_last_n_days_all_states isoW (30 * 86400) 30 vulnsW
    ∧ Vuln.mk (some "high") (some "detected") (some "Told")
      ∉ get_vulns_last_n_days_all_states isoW (30 * 86400) 30 vulnsW
    ∧ Vuln.mk (some "critical") (some "detected") (some "garbage")
      ∉ get_vulns_last_n_days_all_states isoW (30 * 86400) 30 vulnsW
    ∧ Vuln.mk (some "critical") (some "detected") none
      ∉ get_vulns_last_n_days_all_states isoW (30 * 86400) 30 vulnsW := by
  refine ⟨?_, ?_, ?_, ?_⟩
  · exact (window_filter_boundary isoW (30 * 86400) 30 vulnsW _ (by decide)).1
      (by decide)
  · exact (window_filter_boundary isoW (30 * 86400) 30 vulnsW _ (by decide)).2.1
      (-5) (by decide) (by decide)
  · exact (window_filter_boundary isoW (30 * 86400) 30 vulnsW _ (by decide)).2.2.1
      (by decide)
  · exact (window_filter_boundary isoW (30 * 86400) 30 vulnsW _ (by decide)).2.2.2
      rfl

/-- Python `str.lower()` on a string of code points. -/
def strLower (s : String) : String :=
  String.mk (s.data.map Char.toLower)

/-- The first branch condition of the loop in `get_open_counts` (line
181 of `2.py`): severity "critical" and state "detected", both sides
lower-cased first, missing values read as `""`. -/
def isCritOpen (v : Vuln) : Bool :=
  strLower (v.severity.getD "") == "critical" && strLower (v.state.getD "") == "detected"

/-- The second (elif) branch condition of the loop in `get_open_counts`
(line 183 of `2.py`): severity "high" and state "detected". -/
def isHighOpen (v : Vuln) : Bool :=
  strLower (v.severity.getD "") == "high" && strLower (v.state.getD "") == "detected"

/-- One iteration of the `get_open_counts` loop (lines 177-185 of
`2.py`): `if` critical-detected increment the first counter, `elif`
high-detected increment the second, else leave both. -/
def openCountsStep (acc : Nat × Nat) (v : Vuln) : Nat × Nat :=
  if isCritOpen v then (acc.1 + 1, acc.2)
  else if isHighOpen v then (acc.1, acc.2 + 1)
  else acc

/-- Function `get_open_counts` (lines 175-185 of `2.py`), over the record list
the `state="detected"` iteration produced. -/
def get_open_counts (vulns : List Vuln) : Nat × Nat :=
  vulns.foldl openCountsStep (0, 0)

theorem crit_not_high (v : Vuln) (h : isCritOpen v = true) : isHighOpen v = false := by
  simp only [isCritOpen, Bool.and_eq_true, beq_iff_eq] at h
  simp [isHighOpen, h.1]

theorem get_open_counts_foldl (vulns : List Vuln) :
    ∀ a b : Nat, vulns.foldl openCountsStep (a, b)
      = (a + vulns.countP isCritOpen, b + vulns.countP isHighOpen) := by
  induction vulns with
  | nil => intro a b; simp
  | cons v vs ih =>
    intro a b
    rw [List.foldl_cons, List.countP_cons, List.countP_cons]
    by_cases h1 : isCritOpen v = true
    · have h2 := crit_not_high v h1
      have hstep : openCountsStep (a, b) v = (a + 1, b) := by
        simp [openCountsStep, h1]
      rw [hstep, ih (a + 1) b]
      simp [h1, h2, Prod.ext_iff]
      omega
    · by_cases h2 : isHighOpen v = true
      · have hstep : openCountsStep (a, b) v = (a, b + 1) := by
          simp [openCountsStep, h1, h2]
        rw [hstep, ih a (b + 1)]
        simp [h1, h2, Prod.ext_iff]
        omega
      · have hstep : openCountsStep (a, b) v = (a, b) := by
          simp [openCountsStep, h1, h2]
        rw [hstep, ih a b]
        simp [h1, h2]

/-- C7: `get_open_counts` returns exactly (number of records that are
critical and detected, number of records that are high and detected),
with severity and state lower-cased before comparison; records matching
neither branch condition contribute to neither count. -/
theorem open_counts_spec (vulns : List Vuln) :
    get_open_counts vulns = (vulns.countP isCritOpen, vulns.countP isHighOpen) := by
  have h := get_open_counts_foldl vulns 0 0
  simpa [get_open_counts] using h

/-- One row of a per-scrum table, as built in `main` (lines 407-418 of
`2.py`). Field names follow the column keys; counts are naturals. -/
structure ProjectRow where
  scrumName : String
  projectName : String
  critical : Nat
  high : Nat
  c30 : Nat
  h30 : Nat
  c60 : Nat
  h60 : Nat
  c90 : Nat
  h90 : Nat
  deriving DecidableEq, Repr

/-- One row of the Summary table (lines 438-448 of `2.py`). -/
structure SummaryRow where
  scrumName : String
  critical : Nat
  high : Nat
  c30 : Nat
  h30 : Nat
  c60 : Nat
  h60 : Nat
  c90 : Nat
  h90 : Nat
  deriving DecidableEq, Repr

/-- The `_sum` closure in `main` (lines 435-436 of `2.py`): the column
sum of the scrum's DataFrame, or 0 when the DataFrame is empty (every
column is always present, and the values are integers so `fillna`
changes nothing). -/
def sumCol (rows : List ProjectRow) (col : ProjectRow → Nat) : Nat :=
  if rows.isEmpty then 0 else (rows.map col).sum

/-- The summary row appended for one scrum (lines 438-448 of `2.py`):
each numeric column is `_sum` of that column. -/
def mkSummaryRow (scrum : String) (rows : List ProjectRow) : SummaryRow :=
  { scrumName := scrum
    critical := sumCol rows (fun r => r.critical)
    high := sumCol rows (fun r => r.high)
    c30 := sumCol rows (fun r => r.c30)
    h30 := sumCol rows (fun r => r.h30)
    c60 := sumCol rows (fun r => r.c60)
    h60 := sumCol rows (fun r => r.h60)
    c90 := sumCol rows (fun r => r.c90)
    h90 := sumCol rows (fun r => r.h90) }

theorem sumCol_eq_sum (rows : List ProjectRow) (col : ProjectRow → Nat) :
    sumCol rows col = (rows.map col).sum := by
  cases rows <;> simp [sumCol]

/-- C6: every numeric field of a group's SummaryRow is the sum of that
field over the group's ProjectRows, and an empty project list gives the
all-zero summary. -/
theorem summary_row_sums (scrum : String) (rows : List ProjectRow) :
    mkSummaryRow scrum rows
      = ⟨scrum,
         (rows.map fun r => r.critical).sum,
         (rows.map fun r => r.high).sum,
         (rows.map fun r => r.c30).sum,
         (rows.map fun r => r.h30).sum,
         (rows.map fun r => r.c60).sum,
         (rows.map fun r => r.h60).sum,
         (rows.map fun r => r.c90).sum,
         (rows.map fun r => r.h90).sum⟩
    ∧ (rows = [] → mkSummaryRow scrum rows = ⟨scrum, 0, 0, 0, 0, 0, 0, 0, 0⟩) := by
  constructor
  · simp [mkSummaryRow, sumCol_eq_sum]
  · intro h
    subst h
    rfl

/-- Witness for C6 at a concrete two-row list and at the empty list. -/
theorem summary_row_sums_witness :
    mkSummaryRow "s" [⟨"s", "p1", 3, 0, 5, 0, 6, 1, 7, 2⟩, ⟨"s", "p2", 0, 0, 0, 0, 0, 0, 0, 0⟩]
      = ⟨"s", 3, 0, 5, 0, 6, 1, 7, 2⟩
    ∧ mkSummaryRow "s" [] = ⟨"s", 0, 0, 0, 0, 0, 0, 0, 0⟩ :=
  ⟨by
    rw [(summary_row_sums "s"
      [⟨"s", "p1", 3, 0, 5, 0, 6, 1, 7, 2⟩, ⟨"s", "p2", 0, 0, 0, 0, 0, 0, 0, 0⟩]).1]
    rfl,
   (summary_row_sums "s" []).2 rfl⟩

/-- Python `scrum_name.lower()` on a sheet name as a code-point list. -/
def lowerName (name : List Char) : List Char :=
  name.map Char.toLower

/-- Variable `safe_sheet_name` (lines 429-431 of `2.py`): the lower-cased scrum
name sliced to its first 31 code points. -/
def safe_sheet_name (name : List Char) : List Char :=
  (lowerName name).take 31

/-- C9: the per-group sheet name is the lower-cased group name
truncated to 31 characters; for a name whose lower-cased form is longer
than 31 characters it is exactly the first 31 characters of that form
(a length-31 list that the rest of the lower-cased name extends). -/
theorem sheet_name_truncation (name : List Char)
    (h : 31 < (lowerName name).length) :
    safe_sheet_name name = (lowerName name).take 31
    ∧ (safe_sheet_name name).length = 31
    ∧ safe_sheet_name name ++ (lowerName name).drop 31 = lowerName name := by
  refine ⟨rfl, ?_, ?_⟩
  · rw [safe_sheet_name, List.length_take, Nat.min_eq_left (Nat.le_of_lt h)]
  · rw [safe_sheet_name, List.take_append_drop]

/-- A 32-character group name for the C9 witness. -/
def nameW : List Char :=
  "SME-Mobile-Security-Team-Reports".data

/-- Witness for C9 at the concrete 32-character name `nameW`. -/
theorem sheet_name_truncation_witness :
    31 < (lowerName nameW).length
    ∧ (safe_sheet_name nameW).length = 31 :=
  ⟨by decide, (sheet_name_truncation nameW (by decide)).2.1⟩

end GitlabVulnReport
